import Mathlib

/-!
Verification of the generation-cache-aside orchestrator of the appcrianca
repository.  Python strings are embedded as `List Char`; the fallible parts
of the code (operations that can raise) return `Option`; the filesystem that
backs the audio cache is an explicit association list from paths to file
contents.  Each definition is translated from the named source function.
-/

/-- Whitespace recognized by Python's `str.strip()` (ASCII range): space,
tab, newline, carriage return, vertical tab, form feed. -/
def isPyWs (c : Char) : Bool :=
  c == ' ' || c == '\t' || c == '\n' || c == '\r' || c == '\x0b' || c == '\x0c'

/-- Leading-whitespace removal, the first half of Python `str.strip()`. -/
def pyStripStart (l : List Char) : List Char :=
  l.dropWhile isPyWs

/-- Trailing-whitespace removal, the second half of Python `str.strip()`. -/
def pyStripEnd (l : List Char) : List Char :=
  (l.reverse.dropWhile isPyWs).reverse

/-- Python `str.strip()` on the ASCII whitespace set. -/
def pyStrip (l : List Char) : List Char :=
  pyStripEnd (pyStripStart l)

/-- First branch pair of `AIService._clean_json_response`: drop a leading
"```json" (7 chars) else a leading "```" (3 chars), else leave unchanged. -/
def stripLeadFence (r : List Char) : List Char :=
  if (("```json").toList).isPrefixOf r then r.drop 7
  else if (("```").toList).isPrefixOf r then r.drop 3
  else r

/-- Final branch of `AIService._clean_json_response`: drop a trailing "```".
`r.take (r.length - 3)` is Python's `response[:-3]`. -/
def stripTrailFence (r : List Char) : List Char :=
  if (("```").toList).isSuffixOf r then r.take (r.length - 3) else r

/-- `AIService._clean_json_response` (src/backend/app/services/ai_service.py,
lines 526-543): strip, drop a leading "```json" or "```", drop a trailing
"```", strip again. -/
def cleanJsonResponse (r : List Char) : List Char :=
  pyStrip (stripTrailFence (stripLeadFence (pyStrip r)))

/-- JSON values, the shapes Python's `json.loads` can return for the
payloads exchanged here.  The model covers null, booleans, integers,
escape-free strings, arrays and objects; floats and string escapes do not
occur in the payloads the claims are about and are rejected by the model
parser. -/
inductive JVal where
  | null
  | bool (b : Bool)
  | num (n : Int)
  | str (s : List Char)
  | arr (xs : List JVal)
  | obj (kvs : List (List Char × JVal))

/-- JSON whitespace accepted between tokens by `json.loads`. -/
def isJsonWs (c : Char) : Bool :=
  c == ' ' || c == '\t' || c == '\n' || c == '\r'

def skipJsonWs (l : List Char) : List Char :=
  l.dropWhile isJsonWs

/-- Match an exact character sequence, returning the remainder. -/
def expectChars : List Char → List Char → Option (List Char)
  | [], l => some l
  | _ :: _, [] => none
  | c :: cs, x :: xs => if c = x then expectChars cs xs else none

/-- Body of a JSON string after the opening quote: everything up to the
closing quote; escape sequences are outside the model and rejected. -/
def parseJsonStringBody : List Char → Option (List Char × List Char)
  | [] => none
  | c :: rest =>
    if c = '"' then some ([], rest)
    else if c = '\\' then none
    else
      match parseJsonStringBody rest with
      | some (s, r) => some (c :: s, r)
      | none => none

def digitVal (c : Char) : Int :=
  Int.ofNat (c.toNat - 48)

/-- A JSON integer literal: optional minus sign, then at least one digit. -/
def parseJsonInt (l : List Char) : Option (Int × List Char) :=
  let core : List Char → Option (Int × List Char) := fun m =>
    let ds := m.takeWhile Char.isDigit
    if ds.isEmpty then none
    else some (ds.foldl (fun a c => a * 10 + digitVal c) 0, m.drop ds.length)
  match l with
  | '-' :: rest => (core rest).map (fun (n, r) => (-n, r))
  | _ => core l

mutual

/-- Recursive-descent model of `json.loads`'s value parser (fuel-indexed so
that every function is structurally recursive and kernel-evaluable). -/
def parseJsonValue : Nat → List Char → Option (JVal × List Char)
  | 0, _ => none
  | fuel + 1, l =>
    match skipJsonWs l with
    | [] => none
    | '{' :: rest =>
      match skipJsonWs rest with
      | '}' :: r2 => some (.obj [], r2)
      | r1 => (parseJsonMembers fuel r1).map (fun (kvs, r) => (.obj kvs, r))
    | '[' :: rest =>
      match skipJsonWs rest with
      | ']' :: r2 => some (.arr [], r2)
      | r1 => (parseJsonItems fuel r1).map (fun (vs, r) => (.arr vs, r))
    | '"' :: rest =>
      (parseJsonStringBody rest).map (fun (s, r) => (.str s, r))
    | 'n' :: rest => (expectChars (("ull").toList) rest).map (fun r => (.null, r))
    | 't' :: rest => (expectChars (("rue").toList) rest).map (fun r => (.bool true, r))
    | 'f' :: rest => (expectChars (("alse").toList) rest).map (fun r => (.bool false, r))
    | c :: rest =>
      if c = '-' ∨ c.isDigit then
        (parseJsonInt (c :: rest)).map (fun (n, r) => (.num n, r))
      else none

/-- Comma-separated values up to the closing `]`. -/
def parseJsonItems : Nat → List Char → Option (List JVal × List Char)
  | 0, _ => none
  | fuel + 1, l =>
    match parseJsonValue fuel l with
    | none => none
    | some (v, r) =>
      match skipJsonWs r with
      | ',' :: r2 => (parseJsonItems fuel r2).map (fun (vs, r3) => (v :: vs, r3))
      | ']' :: r2 => some ([v], r2)
      | _ => none

/-- Comma-separated `"key": value` pairs up to the closing brace. -/
def parseJsonMembers : Nat → List Char → Option (List (List Char × JVal) × List Char)
  | 0, _ => none
  | fuel + 1, l =>
    match skipJsonWs l with
    | '"' :: rest =>
      match parseJsonStringBody rest with
      | none => none
      | some (k, r) =>
        match skipJsonWs r with
        | ':' :: r2 =>
          match parseJsonValue fuel r2 with
          | none => none
          | some (v, r3) =>
            match skipJsonWs r3 with
            | ',' :: r4 => (parseJsonMembers fuel r4).map (fun (kvs, r5) => ((k, v) :: kvs, r5))
            | '}' :: r4 => some ([(k, v)], r4)
            | _ => none
        | _ => none
    | _ => none

end

/-- Model of Python `json.loads`: parse one value and require only
whitespace after it. -/
def jsonLoads (l : List Char) : Option JVal :=
  match parseJsonValue (2 * l.length + 4) l with
  | some (v, r) => if skipJsonWs r = [] then some v else none
  | none => none

/-- Outcome of one call to the Gemini text backend
(`self.gemini_client.generate_response(...)`): either raw text or a raised
exception.  The backend is external to the repository, so its outcome is a
parameter of the embedding. -/
inductive BackendOutcome where
  | ok (raw : List Char)
  | exn

/-- One entry of the fixed fallback table of
`AIService._get_fallback_phrases` (ai_service.py lines 275-297). -/
def fallbackPhraseEntry (situation situationPt phrasePt phraseEn : List Char)
    (difficulty : Int) : JVal :=
  .obj [((("situation").toList), .str situation),
        ((("situation_pt").toList), .str situationPt),
        ((("phrase_pt").toList), .str phrasePt),
        ((("phrase_en").toList), .str phraseEn),
        ((("difficulty").toList), .num difficulty)]

/-- The three-entry fallback table of `AIService._get_fallback_phrases`,
with `word`/`translation` substituted into the fixed sentence skeletons. -/
def fallbackPhrasesTable (word translation : List Char) (difficulty : Int) :
    List JVal :=
  [fallbackPhraseEntry (("asking_permission").toList)
      (("Pedindo Permissão").toList)
      ((("Posso usar o ").toList) ++ translation ++ (("?").toList))
      ((("Can I use the ").toList) ++ word ++ (("?").toList)) difficulty,
   fallbackPhraseEntry (("describing_action").toList)
      (("Descrevendo Ação").toList)
      ((("Eu estou usando o ").toList) ++ translation)
      ((("I am using the ").toList) ++ word) difficulty,
   fallbackPhraseEntry (("talking_routine").toList)
      (("Falando sobre Rotina").toList)
      ((("Eu uso o ").toList) ++ translation ++ ((" todo dia").toList))
      ((("I use the ").toList) ++ word ++ ((" every day").toList)) difficulty]

/-- Result of `generate_contextual_phrases`: the `phrases` value and the
reported generation time, plus an instrumentation flag `degraded` recording
whether the fallback path produced the value (the spec's `degraded` result
flag; the Python dict itself carries no such key). -/
structure PhrasesResult where
  phrases : JVal
  generationTimeMs : Nat
  degraded : Bool

/-- `AIService._get_fallback_phrases` (ai_service.py lines 273-302):
the fixed table truncated to `num` entries, reported with
`generation_time_ms = 0`. -/
def getFallbackPhrases (word translation : List Char) (difficulty : Int)
    (num : Nat) : PhrasesResult :=
  ⟨.arr ((fallbackPhrasesTable word translation difficulty).take num), 0, true⟩

/-- `AIService.generate_contextual_phrases` (ai_service.py lines 170-271).
`complexity_guide[difficulty]` is evaluated while building the prompt,
before the `try` block, so a difficulty outside 1..3 raises KeyError to the
caller (modeled as `none`).  Otherwise the backend outcome is consulted: on
success the whitespace-stripped raw text is decoded with `json.loads` (note:
no `_clean_json_response` here); decode failure or a backend exception
yields the fallback table.  `elapsedMs` stands for the measured wall-clock
time. -/
def generateContextualPhrases (word translation : List Char) (difficulty : Int)
    (numPhrases : Nat) (outcome : BackendOutcome) (elapsedMs : Nat) :
    Option PhrasesResult :=
  if difficulty = 1 ∨ difficulty = 2 ∨ difficulty = 3 then
    match outcome with
    | .exn => some (getFallbackPhrases word translation difficulty numPhrases)
    | .ok raw =>
      match jsonLoads (pyStrip raw) with
      | some v => some ⟨v, elapsedMs, false⟩
      | none => some (getFallbackPhrases word translation difficulty numPhrases)
  else none

/-- How an entry point turns the raw backend text into a structured value:
either the decoded value, or the capability's fallback path. -/
inductive ParseStage where
  | parsed (v : JVal)
  | fallback

/-- Parse stage of `generate_contextual_phrases` (ai_service.py line 256):
`json.loads(response.strip())`, no envelope stripping. -/
def phrasesParseStage (raw : List Char) : ParseStage :=
  match jsonLoads (pyStrip raw) with
  | some v => .parsed v
  | none => .fallback

/-- Parse stage of `generate_word_breakdown` (ai_service.py line 357):
`json.loads(response.strip())`, no envelope stripping. -/
def breakdownParseStage (raw : List Char) : ParseStage :=
  match jsonLoads (pyStrip raw) with
  | some v => .parsed v
  | none => .fallback

/-- Parse stage of `generate_quiz` (ai_service.py line 504):
`json.loads(response.strip())`, no envelope stripping. -/
def quizParseStage (raw : List Char) : ParseStage :=
  match jsonLoads (pyStrip raw) with
  | some v => .parsed v
  | none => .fallback

/-- Parse stage of `chat_with_object` (ai_service.py lines 647-656):
`json.loads(self._clean_json_response(response))`, then
`result["generation_time_ms"] = ...`, which raises TypeError (caught,
leading to the fallback) unless the decoded value is an object. -/
def chatParseStage (raw : List Char) : ParseStage :=
  match jsonLoads (cleanJsonResponse raw) with
  | some (.obj kvs) => .parsed (.obj kvs)
  | some _ => .fallback
  | none => .fallback

/-- Parse stage of `generate_game` (ai_service.py lines 855-869): same
shape as the chat stage (`_clean_json_response` then `json.loads` then
item assignment of the metadata keys). -/
def gameParseStage (raw : List Char) : ParseStage :=
  match jsonLoads (cleanJsonResponse raw) with
  | some (.obj kvs) => .parsed (.obj kvs)
  | some _ => .fallback
  | none => .fallback

/-- A structured payload wrapped in a fenced block, as a backend might
return it. -/
def fencedPayload (p : List Char) : List Char :=
  (("```json\n").toList) ++ p ++ (("\n```").toList)

/-- Python `str.lower` on the Latin-1 range (ASCII letters and the accented
Latin-1 capitals). -/
def pyLower (c : Char) : Char :=
  if 'A' ≤ c ∧ c ≤ 'Z' then Char.ofNat (c.toNat + 32)
  else if 'À' ≤ c ∧ c ≤ 'Þ' ∧ c ≠ '×' then Char.ofNat (c.toNat + 32)
  else c

/-- Python `str.upper` on the Latin-1 range. -/
def pyUpper (c : Char) : Char :=
  if 'a' ≤ c ∧ c ≤ 'z' then Char.ofNat (c.toNat - 32)
  else if 'à' ≤ c ∧ c ≤ 'þ' ∧ c ≠ '÷' then Char.ofNat (c.toNat - 32)
  else c

/-- One `{"en": ..., "pt": ...}` entry of the related-vocabulary table. -/
structure VocabPair where
  en : List Char
  pt : List Char

/-- The `related_vocab` table of `AIService._get_fallback_game`
(ai_service.py lines 875-898), including the `.get` default. -/
def relatedVocab (wordLower : List Char) : List VocabPair :=
  if wordLower = ("sofa").toList then
    [⟨("cushion").toList, ("almofada").toList⟩,
     ⟨("armrest").toList, ("braço").toList⟩,
     ⟨("fabric").toList, ("tecido").toList⟩]
  else if wordLower = ("table").toList then
    [⟨("chair").toList, ("cadeira").toList⟩,
     ⟨("tablecloth").toList, ("toalha de mesa").toList⟩,
     ⟨("surface").toList, ("superfície").toList⟩]
  else if wordLower = ("tv").toList then
    [⟨("remote").toList, ("controle").toList⟩,
     ⟨("screen").toList, ("tela").toList⟩,
     ⟨("button").toList, ("botão").toList⟩]
  else
    [⟨("part").toList, ("parte").toList⟩,
     ⟨("use").toList, ("usar").toList⟩,
     ⟨("object").toList, ("objeto").toList⟩]

/-- `AIService._get_fallback_game` (ai_service.py lines 871-964).  The
result dict is modeled as a `JVal` object.  Python operations that can
raise (list indexing `related_words[0]`, string indexing `en[0]`/`en[-1]`)
are modeled through `Option`/`match`, so `some` means the function returned
without an error. -/
def getFallbackGame (gameType word translation : List Char) : Option JVal :=
  let relatedWords := relatedVocab (word.map pyLower)
  match relatedWords.head? with
  | none => none
  | some rw =>
    if gameType = ("guess_word").toList then
      some (.obj [((("game_type").toList), .str (("guess_word").toList)),
        ((("word_to_guess").toList), .str rw.en),
        ((("translation").toList), .str rw.pt),
        ((("hints").toList), .arr
          [.str ((("É algo relacionado ao ").toList) ++ translation),
           .str ((("Você encontra perto ou em um ").toList) ++ translation),
           .str ((("Em português chamamos de ").toList) ++ rw.pt)]),
        ((("max_attempts").toList), .num 3),
        ((("category").toList), .str ((("Relacionado a ").toList) ++ translation)),
        ((("difficulty").toList), .str (("easy").toList)),
        ((("generation_time_ms").toList), .num 0)])
    else if gameType = ("anagram").toList then
      some (.obj [((("game_type").toList), .str (("anagram").toList)),
        ((("word").toList), .str rw.en),
        ((("translation").toList), .str rw.pt),
        ((("scrambled").toList), .str rw.en.reverse),
        ((("hint").toList), .str ((("Relacionado ao ").toList) ++ translation)),
        ((("category").toList), .str ((("Relacionado a ").toList) ++ translation)),
        ((("difficulty").toList), .str (("easy").toList)),
        ((("generation_time_ms").toList), .num 0)])
    else if gameType = ("quick_quiz").toList then
      some (.obj [((("game_type").toList), .str (("quick_quiz").toList)),
        ((("questions").toList), .arr
          [.obj [((("question").toList),
              .str ((("Como se diz ").toList) ++ translation ++ ((" em inglês?").toList))),
            ((("options").toList), .arr [.str word, .str (("other1").toList),
              .str (("other2").toList), .str (("other3").toList)]),
            ((("correct_answer").toList), .str word),
            ((("translation").toList), .str translation)]]),
        ((("time_per_question").toList), .num 10),
        ((("category").toList), .str ((("Vocabulário de ").toList) ++ translation)),
        ((("difficulty").toList), .str (("easy").toList)),
        ((("generation_time_ms").toList), .num 0)])
    else if gameType = ("missing_letters").toList then
      match h : rw.en with
      | [] => none
      | c :: rest =>
        some (.obj [((("game_type").toList), .str (("missing_letters").toList)),
          ((("word").toList), .str rw.en),
          ((("translation").toList), .str rw.pt),
          ((("pattern").toList), .str
            ([c] ++ List.replicate (rw.en.length - 2) '_'
              ++ [(c :: rest).getLast (by simp)])),
          ((("hint").toList), .str ((("Relacionado ao ").toList) ++ translation)),
          ((("missing_letters").toList),
            .arr ((rw.en.drop 1).dropLast.map (fun d => .str [d]))),
          ((("category").toList), .str ((("Relacionado a ").toList) ++ translation)),
          ((("difficulty").toList), .str (("easy").toList)),
          ((("generation_time_ms").toList), .num 0)])
    else
      some (.obj [((("game_type").toList), .str gameType),
        ((("error").toList), .str (("Game type not supported").toList)),
        ((("generation_time_ms").toList), .num 0)])

/-- The audio cache directory: an association list from file paths to file
contents; a fresh write shadows older entries for the same path. -/
def fsStore (fs : List (List Char × List Char)) (p c : List Char) :
    List (List Char × List Char) :=
  (p, c) :: fs

def fsLookup (fs : List (List Char × List Char)) (p : List Char) :
    Option (List Char) :=
  (fs.find? (fun e => e.1 == p)).map (fun e => e.2)

/-- `_is_cached` of the TTS services: the file exists and has size > 0. -/
def isCached (fs : List (List Char × List Char)) (p : List Char) : Bool :=
  match fsLookup fs p with
  | some c => !c.isEmpty
  | none => false

/-- The MD5 hex digest of `hashlib.md5(...)`.  The digest itself is outside
the repository; the spec idealizes it as collision-free, so the model takes
the identity map as an injective stand-in — every theorem about key
equality or inequality is really about the digested input string. -/
def md5Hex (s : List Char) : List Char := s

/-- `EdgeTTSService.default_voices.get(language, "pt-BR-FranciscaNeural")`
(edge_tts_service.py lines 41-46 and 148). -/
def defaultVoiceFor (language : List Char) : List Char :=
  if language = ("pt-BR").toList then ("pt-BR-FranciscaNeural").toList
  else if language = ("en-US").toList then ("en-US-AvaNeural").toList
  else if language = ("en-GB").toList then ("en-GB-SoniaNeural").toList
  else if language = ("es-ES").toList then ("es-ES-ElviraNeural").toList
  else ("pt-BR-FranciscaNeural").toList

/-- `rate_map.get(speed, "+0%")` (edge_tts_service.py lines 151-156). -/
def rateFor (speed : List Char) : List Char :=
  if speed = ("slow").toList then ("-20%").toList
  else if speed = ("normal").toList then ("+0%").toList
  else if speed = ("fast").toList then ("+20%").toList
  else ("+0%").toList

/-- The string digested by `EdgeTTSService._get_cache_path`:
`f"{text}_{voice}_{rate}"`. -/
def edgeKeyInput (text voice rate : List Char) : List Char :=
  text ++ (("_").toList) ++ voice ++ (("_").toList) ++ rate

/-- `f"edge_{text_hash}.mp3"`, the cache file name. -/
def edgeCacheName (text voice rate : List Char) : List Char :=
  (("edge_").toList) ++ md5Hex (edgeKeyInput text voice rate) ++ ((".mp3").toList)

/-- `self.cache_dir / f"edge_{text_hash}.mp3"`
(edge_tts_service.py lines 53-67). -/
def edgeCachePath (cacheDir text voice rate : List Char) : List Char :=
  cacheDir ++ (("/").toList) ++ edgeCacheName text voice rate

/-- The cache path that `generate_speech` derives after resolving the voice
default and the speed-to-rate mapping (edge_tts_service.py lines 144-159). -/
def edgeResolvedPath (cacheDir text language : List Char)
    (voice? : Option (List Char)) (speed : List Char) : List Char :=
  edgeCachePath cacheDir text (voice?.getD (defaultVoiceFor language))
    (rateFor speed)

/-- What the external Edge-TTS engine did during `_generate_async`: `ok c`
means `communicate.save` completed, leaving a file with content `c`
(`_generate_async` then returns `exists and size > 0`); `fail residue`
means it raised, leaving either nothing or a partially written file at the
output path — the engine streams straight into the cache path, so a partial
file is possible. -/
inductive SpeechBehavior where
  | ok (content : List Char)
  | fail (residue : Option (List Char))

/-- The dict returned by `EdgeTTSService.generate_speech` (the wall-clock
`generation_time_ms` field is not modeled). -/
structure EdgeResult where
  audioPath : List Char
  audioUrl : List Char
  text : List Char
  voice : List Char
  language : List Char
  cached : Bool
  fileSize : Nat

/-- `EdgeTTSService.generate_speech` (edge_tts_service.py lines 108-211).
Returns the optional result dict, the file system after the call, and a
flag recording whether the backend engine was invoked (the spec's
call-count spy).  `available` is the module-level `EDGE_TTS_AVAILABLE`. -/
def edgeGenerateSpeech (available : Bool) (cacheDir : List Char)
    (fs : List (List Char × List Char)) (text language : List Char)
    (voice? : Option (List Char)) (speed : List Char) (useCache : Bool)
    (behavior : SpeechBehavior) :
    Option EdgeResult × List (List Char × List Char) × Bool :=
  if available = false then (none, fs, false)
  else
    let voice := voice?.getD (defaultVoiceFor language)
    let rate := rateFor speed
    let path := edgeCachePath cacheDir text voice rate
    if useCache && isCached fs path then
      (some { audioPath := path
              audioUrl := (("/audio_cache_pt/").toList) ++ edgeCacheName text voice rate
              text := text, voice := voice, language := language
              cached := true
              fileSize := ((fsLookup fs path).getD []).length }, fs, false)
    else
      let fs' :=
        match behavior with
        | .ok c => fsStore fs path c
        | .fail (some r) => fsStore fs path r
        | .fail none => fs
      let success := match behavior with | .ok c => !c.isEmpty | .fail _ => false
      if success && isCached fs' path then
        (some { audioPath := path
                audioUrl := (("/audio_cache_pt/").toList) ++ edgeCacheName text voice rate
                text := text, voice := voice, language := language
                cached := false
                fileSize := ((fsLookup fs' path).getD []).length }, fs', true)
      else (none, fs', true)

/-- What the Piper subprocess did: `ok c` means it exited with code 0
having written `c` to the output file; `fail residue` covers a nonzero exit
code, `TimeoutExpired` and any other exception, with `residue` the file the
killed or failed process may have left at the output path. -/
inductive PiperOutcome where
  | ok (content : List Char)
  | fail (residue : Option (List Char))

/-- `PiperTTSService._get_cache_path` (piper_tts_service.py lines 76-89):
`self.cache_dir / f"piper_pt_{md5(f"{text}_{speed}")}.wav"`.  `speed` is a
float in the source; it enters the key only through its string rendering,
which `speedRepr` stands for. -/
def piperCachePath (cacheDir text speedRepr : List Char) : List Char :=
  cacheDir ++ (("/").toList) ++ (("piper_pt_").toList)
    ++ md5Hex (text ++ (("_").toList) ++ speedRepr) ++ ((".wav").toList)

/-- The dict returned by `PiperTTSService.generate_speech`; the cached
branch carries no `file_size` key, the generated branch does. -/
structure PiperResult where
  audioPath : List Char
  audioUrl : List Char
  text : List Char
  cached : Bool
  fileSize : Option Nat

/-- `PiperTTSService.generate_speech` (piper_tts_service.py lines 124-217).
`ready` is `piper_executable present and model available` (lines 141-149).
On a cache miss the subprocess writes straight to the cache path; a nonzero
exit code, a timeout or an exception returns `None` without removing
whatever the process wrote. -/
def piperGenerateSpeech (ready : Bool) (cacheDir : List Char)
    (fs : List (List Char × List Char)) (text speedRepr : List Char)
    (useCache : Bool) (outcome : PiperOutcome) :
    Option PiperResult × List (List Char × List Char) × Bool :=
  if ready = false then (none, fs, false)
  else
    let path := piperCachePath cacheDir text speedRepr
    if useCache && isCached fs path then
      (some { audioPath := path
              audioUrl := (("/audio_cache_pt/").toList) ++ (("piper_pt_").toList)
                ++ md5Hex (text ++ (("_").toList) ++ speedRepr) ++ ((".wav").toList)
              text := text, cached := true, fileSize := none }, fs, false)
    else
      let fs' :=
        match outcome with
        | .ok c => fsStore fs path c
        | .fail (some r) => fsStore fs path r
        | .fail none => fs
      match outcome with
      | .ok c =>
        (some { audioPath := path
                audioUrl := (("/audio_cache_pt/").toList) ++ (("piper_pt_").toList)
                  ++ md5Hex (text ++ (("_").toList) ++ speedRepr) ++ ((".wav").toList)
                text := text, cached := false, fileSize := some c.length }, fs', true)
      | .fail _ => (none, fs', true)

/-- The `EdgeTTSService` instance state retained by the module-level
singleton (only the constructor argument matters for the claims). -/
structure EdgeTTSInstance where
  cacheDir : List Char

/-- `get_edge_tts` (edge_tts_service.py lines 288-307): the module-level
`_edge_tts_instance` is the explicit state; a `None` state constructs the
service with the given `cache_dir`, any other state returns the stored
instance untouched. -/
def getEdgeTts (state : Option EdgeTTSInstance) (cacheDir : List Char) :
    EdgeTTSInstance × Option EdgeTTSInstance :=
  match state with
  | some inst => (inst, some inst)
  | none => (⟨cacheDir⟩, some ⟨cacheDir⟩)

/-- The regex atoms occurring in the five patterns of
`AIService._fix_portuguese_grammar` (ai_service.py lines 114-168): a
case-insensitive literal (the patterns run under `re.IGNORECASE`), the
whitespace class `\s+`, the alternation `(Essa|Esse)`, and the optional
trailing letter of `uma?`. -/
inductive RAtom where
  | lit (c : Char)
  | ws
  | altDem
  | optA

def litsOf (s : List Char) : List RAtom := s.map RAtom.lit

/-- Sufficient-depth budget for the backtracking matcher: every recursive
step strictly decreases `atomsWeight + length` (with the greedy helper
charged one extra), so this many steps always suffice. -/
def atomWeight : RAtom → Nat
  | .lit _ => 1
  | .ws => 2
  | .optA => 2
  | .altDem => 5

def atomsWeight (as : List RAtom) : Nat := (as.map atomWeight).sum

mutual

/-- Leftmost-position backtracking matcher for one pattern at the head of
`s`, mirroring Python `re` semantics on these atoms: literals compare
case-insensitively, `(Essa|Esse)` tries the left branch first, `a?` is
greedy, and `\s+` is greedy with backtracking (longest whitespace run
first).  Returns the remainder after the match. -/
def matchAtoms : Nat → List RAtom → List Char → Option (List Char)
  | 0, _, _ => none
  | _ + 1, [], s => some s
  | _ + 1, .lit _ :: _, [] => none
  | f + 1, .lit c :: as, x :: xs =>
    if pyLower c = pyLower x then matchAtoms f as xs else none
  | f + 1, .optA :: as, s =>
    (matchAtoms f (.lit 'a' :: as) s).orElse (fun _ => matchAtoms f as s)
  | f + 1, .altDem :: as, s =>
    (matchAtoms f (litsOf (("Essa").toList) ++ as) s).orElse
      (fun _ => matchAtoms f (litsOf (("Esse").toList) ++ as) s)
  | _ + 1, .ws :: _, [] => none
  | f + 1, .ws :: as, x :: xs =>
    if isPyWs x then matchWsGreedy f as xs else none

/-- After `\s+` consumed one whitespace character: keep consuming
whitespace greedily, falling back to shorter runs on failure. -/
def matchWsGreedy : Nat → List RAtom → List Char → Option (List Char)
  | 0, _, _ => none
  | f + 1, as, s =>
    (match s with
     | x :: xs => if isPyWs x then matchWsGreedy f as xs else none
     | [] => none).orElse (fun _ => matchAtoms f as s)

end

/-- Match a pattern at the start of `s` with an always-sufficient budget. -/
def tryMatch (pat : List RAtom) (s : List Char) : Option (List Char) :=
  matchAtoms (atomsWeight pat + s.length + 1) pat s

/-- `re.sub`: scan left to right; on a match, emit the replacement and
continue after the consumed text (the replacement itself is not rescanned);
otherwise move one character forward. -/
def reSub (pat : List RAtom) (repl : List Char) : Nat → List Char → List Char
  | 0, s => s
  | _ + 1, [] => []
  | f + 1, x :: xs =>
    match tryMatch pat (x :: xs) with
    | some rest => repl ++ reSub pat repl f rest
    | none => x :: reSub pat repl f xs

def reSubAll (pat : List RAtom) (repl s : List Char) : List Char :=
  reSub pat repl s.length s

/-- `word.lower().endswith('a')` — the gender heuristic of
`_fix_portuguese_grammar`. -/
def grammarFem (word : List Char) : Bool :=
  (word.map pyLower).getLast? == some 'a'

def grammarArticle (word : List Char) : Char :=
  if grammarFem word then 'a' else 'o'

def grammarCorrectDem (word : List Char) : List Char :=
  if grammarFem word then ("Essa é").toList else ("Esse é").toList

def grammarWrongDem (word : List Char) : List Char :=
  if grammarFem word then ("Esse é").toList else ("Essa é").toList

/-- `f"{correct_demonstrative} {correct_article} {word.upper()}"`, the
common replacement text of all five substitutions. -/
def grammarRepl (word : List Char) : List Char :=
  grammarCorrectDem word ++ [' ', grammarArticle word, ' '] ++ word.map pyUpper

/-- The five ordered patterns of `_fix_portuguese_grammar` (the `word` part
is `re.escape`d in the source, hence literal here). -/
def grammarPatterns (word : List Char) : List (List RAtom) :=
  [litsOf (grammarWrongDem word) ++ [.ws, .lit (grammarArticle word), .ws] ++
     litsOf (word.map pyUpper),
   litsOf (grammarWrongDem word) ++ [.ws, .lit 'u', .lit 'm', .optA, .ws] ++
     litsOf (word.map pyUpper),
   [.altDem, .ws, .lit 'é', .ws, .lit 'u', .lit 'm', .optA, .ws] ++
     litsOf (word.map pyUpper),
   litsOf (grammarWrongDem word) ++ [.ws] ++ litsOf (word.map pyUpper),
   [.altDem, .ws, .lit 'é', .ws] ++ litsOf (word.map pyUpper)]

/-- `AIService._fix_portuguese_grammar` (ai_service.py lines 114-168): the
five substitutions applied in order over the text. -/
def fixPortugueseGrammar (word text : List Char) : List Char :=
  (grammarPatterns word).foldl (fun t p => reSubAll p (grammarRepl word) t) text

/-- Whether the scan of `re.sub` would find a match of `pat` anywhere in
the suffixes of `s` it visits. -/
def hasMatchB (pat : List RAtom) : Nat → List Char → Bool
  | 0, _ => false
  | _ + 1, [] => false
  | f + 1, x :: xs => (tryMatch pat (x :: xs)).isSome || hasMatchB pat f xs

def noMatchB (pat : List RAtom) (s : List Char) : Bool :=
  !(hasMatchB pat s.length s)

theorem dropWhile_head_not (p : Char → Bool) :
    ∀ (l : List Char) (c : Char), (l.dropWhile p).head? = some c → p c = false := by
  intro l
  induction l with
  | nil => intro c h; simp [List.dropWhile] at h
  | cons x xs ih =>
    intro c h
    by_cases hx : p x
    · rw [List.dropWhile_cons_of_pos hx] at h
      exact ih c h
    · rw [List.dropWhile_cons_of_neg hx] at h
      simp at h
      subst h
      simpa using hx

theorem dropWhile_of_head_not (p : Char → Bool) (l : List Char)
    (h : ∀ c, l.head? = some c → p c = false) : l.dropWhile p = l := by
  cases l with
  | nil => rfl
  | cons x xs =>
    have hx : p x = false := h x rfl
    simp [List.dropWhile, hx]

theorem pyStripEnd_append (l : List Char) :
    ∃ t, pyStripEnd l ++ t = l := by
  refine ⟨(l.reverse.takeWhile isPyWs).reverse, ?_⟩
  unfold pyStripEnd
  rw [← List.reverse_append, List.takeWhile_append_dropWhile, List.reverse_reverse]

theorem head_of_append_head (a t : List Char) (c : Char)
    (h : a.head? = some c) : (a ++ t).head? = some c := by
  cases a with
  | nil => simp at h
  | cons x xs => simpa using h

theorem pyStripStart_idem (l : List Char) :
    pyStripStart (pyStripStart l) = pyStripStart l := by
  unfold pyStripStart
  exact dropWhile_of_head_not isPyWs _ (dropWhile_head_not isPyWs l)

theorem pyStripStart_pyStripEnd_of_start (l : List Char) :
    pyStripStart (pyStripEnd (pyStripStart l)) = pyStripEnd (pyStripStart l) := by
  apply dropWhile_of_head_not
  intro c hc
  obtain ⟨t, ht⟩ := pyStripEnd_append (pyStripStart l)
  have : (pyStripStart l).head? = some c := by
    rw [← ht]
    exact head_of_append_head _ t c hc
  exact dropWhile_head_not isPyWs l c this

theorem pyStripEnd_idem (l : List Char) :
    pyStripEnd (pyStripEnd l) = pyStripEnd l := by
  unfold pyStripEnd
  rw [List.reverse_reverse]
  congr 1
  exact dropWhile_of_head_not isPyWs _ (dropWhile_head_not isPyWs l.reverse)

theorem pyStrip_idem (l : List Char) : pyStrip (pyStrip l) = pyStrip l := by
  unfold pyStrip
  rw [pyStripStart_pyStripEnd_of_start, pyStripEnd_idem]

theorem isPrefixOf_of_append_isPrefixOf (a b c : List Char)
    (h : (a ++ b).isPrefixOf c = true) : a.isPrefixOf c = true := by
  induction a generalizing c with
  | nil => simp [List.isPrefixOf]
  | cons x xs ih =>
    cases c with
    | nil => simp [List.isPrefixOf] at h
    | cons y ys =>
      simp only [List.cons_append, List.isPrefixOf, Bool.and_eq_true] at h ⊢
      exact ⟨h.1, ih ys h.2⟩

theorem pyStrip_cleanJsonResponse (x : List Char) :
    pyStrip (cleanJsonResponse x) = cleanJsonResponse x := by
  unfold cleanJsonResponse
  exact pyStrip_idem _

theorem stripLeadFence_of_no_fence (r : List Char)
    (h : (("```").toList).isPrefixOf r = false) : stripLeadFence r = r := by
  unfold stripLeadFence
  have hjson : (("```json").toList).isPrefixOf r = false := by
    by_contra hc
    rw [Bool.not_eq_false] at hc
    have : (("```").toList ++ ("json").toList).isPrefixOf r = true := hc
    rw [isPrefixOf_of_append_isPrefixOf _ _ _ this] at h
    simp at h
  rw [hjson, h]
  simp

theorem stripTrailFence_of_no_fence (r : List Char)
    (h : (("```").toList).isSuffixOf r = false) : stripTrailFence r = r := by
  unfold stripTrailFence
  rw [h]
  simp

/-- C4 counterexample: envelope stripping is not idempotent on the input
"``````json x" (a doubled leading delimiter).  One pass yields "```json x",
a second pass yields "x". -/
theorem cleanJsonResponse_not_idem :
    cleanJsonResponse (cleanJsonResponse (("``````json x").toList)) ≠
      cleanJsonResponse (("``````json x").toList) := by decide

/-- C4 (amended): envelope stripping is idempotent for every input whose
single-pass result neither starts nor ends with the "```" delimiter — in
particular for every input with no leading or trailing delimiter.  Inputs
with doubled delimiters (see the counterexample) escape this condition. -/
theorem cleanJsonResponse_idem_of_no_fence (x : List Char)
    (h1 : (("```").toList).isPrefixOf (cleanJsonResponse x) = false)
    (h2 : (("```").toList).isSuffixOf (cleanJsonResponse x) = false) :
    cleanJsonResponse (cleanJsonResponse x) = cleanJsonResponse x := by
  conv_lhs => rw [cleanJsonResponse, pyStrip_cleanJsonResponse,
    stripLeadFence_of_no_fence _ h1, stripTrailFence_of_no_fence _ h2,
    pyStrip_cleanJsonResponse]

/-- Witness for the amended C4 theorem at the fenced input "```json\nhi\n```",
whose single-pass result "hi" carries no delimiter. -/
theorem cleanJsonResponse_idem_of_no_fence_witness :
    cleanJsonResponse (cleanJsonResponse (("```json\nhi\n```").toList)) =
      cleanJsonResponse (("```json\nhi\n```").toList) :=
  cleanJsonResponse_idem_of_no_fence (("```json\nhi\n```").toList)
    (by decide) (by decide)

/-- C10: the singleton accessor `get_edge_tts` returns the same service
instance on every call after the first, and constructor arguments passed on
later calls (a different cache_dir) are silently ignored: the instance
keeps the cache directory chosen at first use. -/
theorem getEdgeTts_singleton :
    (∀ (inst : EdgeTTSInstance) (d : List Char),
      getEdgeTts (some inst) d = (inst, some inst)) ∧
    (∀ (d1 d2 : List Char),
      (getEdgeTts ((getEdgeTts none d1).2) d2).1 = (getEdgeTts none d1).1 ∧
      (getEdgeTts ((getEdgeTts none d1).2) d2).1.cacheDir = d1 ∧
      (getEdgeTts ((getEdgeTts none d1).2) d2).2 = (getEdgeTts none d1).2) := by
  exact ⟨fun inst d => rfl, fun d1 d2 => ⟨rfl, rfl, rfl⟩⟩

/-- C1 counterexample: with the Edge-TTS backend unavailable
(`EDGE_TTS_AVAILABLE = False`), the Speech entry point `generate_speech`
returns `None` — a BackendUnavailable condition surfaced to the caller as
an absent result, not as a degraded artifact. -/
theorem edge_unavailable_returns_none :
    (edgeGenerateSpeech false (("./audio_cache_pt").toList) []
      (("Hello").toList) (("pt-BR").toList) none (("normal").toList) true
      (SpeechBehavior.fail none)).1 = none := rfl

/-- C1 (amended): the AI content entry point `generate_contextual_phrases`
always returns a usable artifact for any backend outcome (error conditions
become degraded fallback content), but the TTS `generate_speech` entry
points surface BackendUnavailable and failed generation as an absent
result (`None`) instead. -/
theorem generate_artifact_propagation :
    (∀ (word translation : List Char) (difficulty : Int) (num : Nat)
       (outcome : BackendOutcome) (e : Nat),
       difficulty = 1 ∨ difficulty = 2 ∨ difficulty = 3 →
       (generateContextualPhrases word translation difficulty num outcome e).isSome) ∧
    (∀ (cacheDir : List Char) fs (text language : List Char) voice? speed
       (useCache : Bool) behavior,
       (edgeGenerateSpeech false cacheDir fs text language voice? speed
         useCache behavior).1 = none) ∧
    (∀ (cacheDir : List Char) fs (text language : List Char) voice? speed residue,
       isCached fs (edgeResolvedPath cacheDir text language voice? speed) = false →
       (edgeGenerateSpeech true cacheDir fs text language voice? speed true
         (SpeechBehavior.fail residue)).1 = none) := by
  refine ⟨?_, ?_, ?_⟩
  · intro word translation difficulty num outcome e h
    cases outcome with
    | exn => simp [generateContextualPhrases, h]
    | ok raw =>
      cases hj : jsonLoads (pyStrip raw) <;>
        simp [generateContextualPhrases, h, hj]
  · intro cacheDir fs text language voice? speed useCache behavior
    rfl
  · intro cacheDir fs text language voice? speed residue h
    simp only [edgeResolvedPath] at h
    cases residue <;> simp [edgeGenerateSpeech, h]

/-- Witness for the amended C1 theorem: a backend exception at difficulty 1
still yields an artifact, and a clean invocation failure on an empty cache
yields an absent Speech result. -/
theorem generate_artifact_propagation_witness :
    (generateContextualPhrases (("sofa").toList) (("sofá").toList) 1 3
      BackendOutcome.exn 0).isSome ∧
    (edgeGenerateSpeech true (("cd").toList) [] (("Hi").toList)
      (("pt-BR").toList) none (("normal").toList) true
      (SpeechBehavior.fail none)).1 = none :=
  ⟨generate_artifact_propagation.1 (("sofa").toList) (("sofá").toList) 1 3
      BackendOutcome.exn 0 (Or.inl rfl),
   generate_artifact_propagation.2.2 (("cd").toList) [] (("Hi").toList)
      (("pt-BR").toList) none (("normal").toList) none (by rfl)⟩

theorem edgeCachePath_flat (cd t v r : List Char) :
    edgeCachePath cd t v r =
      cd ++ ((("/").toList) ++ ((("edge_").toList) ++ (t ++ ((("_").toList) ++
        (v ++ ((("_").toList) ++ (r ++ ((".mp3").toList)))))))) := by
  simp [edgeCachePath, edgeCacheName, edgeKeyInput, md5Hex, List.append_assoc]

theorem append_mid_inj (a b x y : List Char) (h : a ++ (x ++ b) = a ++ (y ++ b)) :
    x = y :=
  List.append_cancel_right (List.append_cancel_left h)

/-- C5 counterexample: two Speech requests that agree on everything except
the speed value — "normal" versus the unrecognized "bogus", both of which
`rate_map.get(speed, "+0%")` maps to "+0%" — derive the identical cache
path, so changing this single parameter does not change the key. -/
theorem edgeKey_speed_collision :
    edgeResolvedPath (("./audio_cache_pt").toList) (("Hello").toList)
        (("pt-BR").toList) none (("normal").toList) =
      edgeResolvedPath (("./audio_cache_pt").toList) (("Hello").toList)
        (("pt-BR").toList) none (("bogus").toList) ∧
    (("normal").toList) ≠ (("bogus").toList) :=
  ⟨rfl, by decide⟩

/-- C5 (amended): the derived cache key separates two requests differing in
a single parameter exactly when that parameter still differs after
resolution: text and explicit voice changes always change the key; a speed
change changes it only when the two speeds map to distinct rates (in
particular for distinct recognized speeds slow/normal/fast); a language
change is ignored whenever an explicit voice is given, and otherwise
changes the key only when the two languages resolve to distinct default
voices. -/
theorem edgeKey_sensitivity :
    (∀ (cd t1 t2 l : List Char) (v? : Option (List Char)) (s : List Char),
      t1 ≠ t2 → edgeResolvedPath cd t1 l v? s ≠ edgeResolvedPath cd t2 l v? s) ∧
    (∀ (cd t l v1 v2 s : List Char),
      v1 ≠ v2 →
      edgeResolvedPath cd t l (some v1) s ≠ edgeResolvedPath cd t l (some v2) s) ∧
    (∀ (cd t l : List Char) (v? : Option (List Char)) (s1 s2 : List Char),
      rateFor s1 ≠ rateFor s2 →
      edgeResolvedPath cd t l v? s1 ≠ edgeResolvedPath cd t l v? s2) ∧
    (∀ s1 s2 : List Char,
      s1 ∈ [(("slow").toList), (("normal").toList), (("fast").toList)] →
      s2 ∈ [(("slow").toList), (("normal").toList), (("fast").toList)] →
      s1 ≠ s2 → rateFor s1 ≠ rateFor s2) ∧
    (∀ (cd t l1 l2 v s : List Char),
      edgeResolvedPath cd t l1 (some v) s = edgeResolvedPath cd t l2 (some v) s) ∧
    (∀ (cd t l1 l2 s : List Char),
      defaultVoiceFor l1 ≠ defaultVoiceFor l2 →
      edgeResolvedPath cd t l1 none s ≠ edgeResolvedPath cd t l2 none s) := by
  have voiceInj : ∀ (cd t v1 v2 r : List Char),
      edgeCachePath cd t v1 r = edgeCachePath cd t v2 r → v1 = v2 := by
    intro cd t v1 v2 r h
    rw [edgeCachePath_flat, edgeCachePath_flat] at h
    have h1 := List.append_cancel_left h
    have h2 := List.append_cancel_left h1
    have h3 := List.append_cancel_left h2
    have h4 := List.append_cancel_left h3
    have h5 := List.append_cancel_left h4
    exact List.append_cancel_right h5
  refine ⟨?_, ?_, ?_, ?_, ?_, ?_⟩
  · intro cd t1 t2 l v? s hne heq
    apply hne
    rw [edgeResolvedPath, edgeResolvedPath, edgeCachePath_flat,
      edgeCachePath_flat] at heq
    have h1 := List.append_cancel_left heq
    have h2 := List.append_cancel_left h1
    have h3 := List.append_cancel_left h2
    exact List.append_cancel_right h3
  · intro cd t l v1 v2 s hne heq
    exact hne (voiceInj cd t v1 v2 (rateFor s) heq)
  · intro cd t l v? s1 s2 hne heq
    apply hne
    rw [edgeResolvedPath, edgeResolvedPath, edgeCachePath_flat,
      edgeCachePath_flat] at heq
    have h1 := List.append_cancel_left heq
    have h2 := List.append_cancel_left h1
    have h3 := List.append_cancel_left h2
    have h4 := List.append_cancel_left h3
    have h5 := List.append_cancel_left h4
    have h6 := List.append_cancel_left h5
    have h7 := List.append_cancel_left h6
    exact List.append_cancel_right h7
  · intro s1 s2 h1 h2 hne
    simp only [List.mem_cons, List.not_mem_nil, or_false] at h1 h2
    rcases h1 with rfl | rfl | rfl <;> rcases h2 with rfl | rfl | rfl <;>
      first
      | exact absurd rfl hne
      | decide
  · intro cd t l1 l2 v s
    rfl
  · intro cd t l1 l2 s hne heq
    exact hne (voiceInj cd t (defaultVoiceFor l1) (defaultVoiceFor l2)
      (rateFor s) heq)

/-- Witness for the amended C5 theorem: concrete sensitivity instances —
texts "a"/"b" give different keys, voices "v1"/"v2" give different keys,
recognized speeds "slow"/"fast" give different rates, and an explicit voice
makes the language irrelevant. -/
theorem edgeKey_sensitivity_witness :
    edgeResolvedPath (("cd").toList) (("a").toList) (("pt-BR").toList) none
        (("normal").toList) ≠
      edgeResolvedPath (("cd").toList) (("b").toList) (("pt-BR").toList) none
        (("normal").toList) ∧
    rateFor (("slow").toList) ≠ rateFor (("fast").toList) ∧
    edgeResolvedPath (("cd").toList) (("a").toList) (("pt-BR").toList)
        (some (("v1").toList)) (("normal").toList) =
      edgeResolvedPath (("cd").toList) (("a").toList) (("en-US").toList)
        (some (("v1").toList)) (("normal").toList) :=
  ⟨edgeKey_sensitivity.1 (("cd").toList) (("a").toList) (("b").toList)
      (("pt-BR").toList) none (("normal").toList) (by decide),
   edgeKey_sensitivity.2.2.2.1 (("slow").toList) (("fast").toList)
      (by simp) (by simp) (by decide),
   edgeKey_sensitivity.2.2.2.2.1 (("cd").toList) (("a").toList)
      (("pt-BR").toList) (("en-US").toList) (("v1").toList)
      (("normal").toList)⟩

/-- C9: fallback totality — the game fallback returns an artifact (no
raising operation is reached) for every game type, word and translation,
with no external call in its definition, and the phrases fallback returns
the fixed table truncated to the requested count for any arguments. -/
theorem fallback_totality :
    (∀ (gameType word translation : List Char),
      (getFallbackGame gameType word translation).isSome) ∧
    (∀ (word translation : List Char) (difficulty : Int) (num : Nat),
      ∃ l, (getFallbackPhrases word translation difficulty num).phrases =
          JVal.arr l ∧ l.length = min num 3) := by
  constructor
  · intro gameType word translation
    unfold getFallbackGame relatedVocab
    repeat' split
    all_goals simp
  · intro word translation difficulty num
    refine ⟨(fallbackPhrasesTable word translation difficulty).take num, rfl, ?_⟩
    simp [List.length_take, fallbackPhrasesTable]

theorem badFencedPayload_decode :
    jsonLoads (pyStrip (("```json\n[invalid\n```").toList)) = none := rfl

/-- C7: when the ContextualPhrases backend returns the fenced non-JSON
string "```json\n[invalid\n```", the entry point returns exactly the
fallback artifact: degraded (the fallback path, reported with
generation_time_ms = 0; the AI service keeps no cache, so nothing is served
from cache) with a phrase list of length `min num_phrases 3`, the requested
count truncated against the three-entry fallback table. -/
theorem phrases_malformed_scenario (word translation : List Char)
    (difficulty : Int) (num : Nat) (e : Nat)
    (h : difficulty = 1 ∨ difficulty = 2 ∨ difficulty = 3) :
    generateContextualPhrases word translation difficulty num
        (BackendOutcome.ok (("```json\n[invalid\n```").toList)) e =
      some (getFallbackPhrases word translation difficulty num) ∧
    (getFallbackPhrases word translation difficulty num).degraded = true ∧
    ∃ l, (getFallbackPhrases word translation difficulty num).phrases =
        JVal.arr l ∧ l.length = min num 3 := by
  refine ⟨?_, rfl, ?_⟩
  · unfold generateContextualPhrases
    rw [if_pos h]
    simp only [badFencedPayload_decode]
  · refine ⟨(fallbackPhrasesTable word translation difficulty).take num, rfl, ?_⟩
    simp [List.length_take, fallbackPhrasesTable]

/-- Witness for C7 at word "sofa", difficulty 1, five requested phrases:
the fallback list is truncated to the three table entries. -/
theorem phrases_malformed_scenario_witness :
    generateContextualPhrases (("sofa").toList) (("sofá").toList) 1 5
        (BackendOutcome.ok (("```json\n[invalid\n```").toList)) 0 =
      some (getFallbackPhrases (("sofa").toList) (("sofá").toList) 1 5) ∧
    (getFallbackPhrases (("sofa").toList) (("sofá").toList) 1 5).degraded = true ∧
    ∃ l, (getFallbackPhrases (("sofa").toList) (("sofá").toList) 1 5).phrases =
        JVal.arr l ∧ l.length = min 5 3 :=
  phrases_malformed_scenario (("sofa").toList) (("sofá").toList) 1 5 0
    (Or.inl rfl)

theorem edgeGenerateSpeech_hit (cd : List Char)
    (fs : List (List Char × List Char)) (t l : List Char)
    (v? : Option (List Char)) (s : List Char) (b : SpeechBehavior)
    (hc : isCached fs (edgeResolvedPath cd t l v? s) = true) :
    edgeGenerateSpeech true cd fs t l v? s true b =
      (some { audioPath := edgeResolvedPath cd t l v? s
              audioUrl := (("/audio_cache_pt/").toList) ++
                edgeCacheName t (v?.getD (defaultVoiceFor l)) (rateFor s)
              text := t, voice := v?.getD (defaultVoiceFor l), language := l
              cached := true
              fileSize := ((fsLookup fs (edgeResolvedPath cd t l v? s)).getD []).length },
        fs, false) := by
  simp only [edgeResolvedPath] at hc ⊢
  simp [edgeGenerateSpeech, hc]

theorem edgeGenerateSpeech_some_cached (cd : List Char)
    (fs : List (List Char × List Char)) (t l : List Char)
    (v? : Option (List Char)) (s : List Char) (b : SpeechBehavior)
    (r : EdgeResult)
    (h : (edgeGenerateSpeech true cd fs t l v? s true b).1 = some r) :
    isCached (edgeGenerateSpeech true cd fs t l v? s true b).2.1
      (edgeResolvedPath cd t l v? s) = true ∧
    r.audioPath = edgeResolvedPath cd t l v? s ∧
    r.audioUrl = (("/audio_cache_pt/").toList) ++
      edgeCacheName t (v?.getD (defaultVoiceFor l)) (rateFor s) ∧
    r.fileSize = ((fsLookup (edgeGenerateSpeech true cd fs t l v? s true b).2.1
      (edgeResolvedPath cd t l v? s)).getD []).length := by
  simp [edgeGenerateSpeech, edgeResolvedPath] at h ⊢
  split at h
  · next hguard =>
    simp only [Option.some.injEq] at h
    subst h
    simp_all
  · next hguard =>
    split at h
    · next hgen =>
      simp only [Option.some.injEq] at h
      subst h
      simp_all
    · simp at h

/-- C2: after a successful `generate_speech` for (text, voice, speed), a
second call with identical parameters reports cached=true, serves the
identical audio_url and audio_path with the same file size from an
unchanged cache, and does not invoke the backend engine again. -/
theorem speech_second_call_cached (cd : List Char)
    (fs : List (List Char × List Char)) (t l : List Char)
    (v? : Option (List Char)) (s : List Char) (b1 b2 : SpeechBehavior)
    (r : EdgeResult)
    (h : (edgeGenerateSpeech true cd fs t l v? s true b1).1 = some r) :
    ∃ r2 : EdgeResult,
      (edgeGenerateSpeech true cd
        (edgeGenerateSpeech true cd fs t l v? s true b1).2.1
        t l v? s true b2).1 = some r2 ∧
      r2.cached = true ∧ r2.audioUrl = r.audioUrl ∧
      r2.audioPath = r.audioPath ∧ r2.fileSize = r.fileSize ∧
      (edgeGenerateSpeech true cd
        (edgeGenerateSpeech true cd fs t l v? s true b1).2.1
        t l v? s true b2).2.1 =
        (edgeGenerateSpeech true cd fs t l v? s true b1).2.1 ∧
      (edgeGenerateSpeech true cd
        (edgeGenerateSpeech true cd fs t l v? s true b1).2.1
        t l v? s true b2).2.2 = false := by
  obtain ⟨hc, hpath, hurl, hsize⟩ :=
    edgeGenerateSpeech_some_cached cd fs t l v? s b1 r h
  have h2 := edgeGenerateSpeech_hit cd
    (edgeGenerateSpeech true cd fs t l v? s true b1).2.1 t l v? s b2 hc
  refine ⟨_, by rw [h2], rfl, ?_, ?_, ?_, by rw [h2], by rw [h2]⟩
  · exact hurl.symm
  · exact hpath.symm
  · exact hsize.symm

/-- Witness for C2: a successful first generation of "Hello" (engine wrote
five bytes), then a second identical request is served from cache. -/
theorem speech_second_call_cached_witness :
    ∃ r2 : EdgeResult,
      (edgeGenerateSpeech true (("cd").toList)
        (edgeGenerateSpeech true (("cd").toList) [] (("Hello").toList)
          (("pt-BR").toList) none (("normal").toList) true
          (SpeechBehavior.ok (("AUDIO").toList))).2.1
        (("Hello").toList) (("pt-BR").toList) none (("normal").toList) true
        (SpeechBehavior.fail none)).1 = some r2 ∧
      r2.cached = true ∧
      r2.audioUrl = (EdgeResult.mk
        (("cd/edge_Hello_pt-BR-FranciscaNeural_+0%.mp3").toList)
        (("/audio_cache_pt/edge_Hello_pt-BR-FranciscaNeural_+0%.mp3").toList)
        (("Hello").toList) (("pt-BR-FranciscaNeural").toList)
        (("pt-BR").toList) false 5).audioUrl ∧
      r2.audioPath = (EdgeResult.mk
        (("cd/edge_Hello_pt-BR-FranciscaNeural_+0%.mp3").toList)
        (("/audio_cache_pt/edge_Hello_pt-BR-FranciscaNeural_+0%.mp3").toList)
        (("Hello").toList) (("pt-BR-FranciscaNeural").toList)
        (("pt-BR").toList) false 5).audioPath ∧
      r2.fileSize = (EdgeResult.mk
        (("cd/edge_Hello_pt-BR-FranciscaNeural_+0%.mp3").toList)
        (("/audio_cache_pt/edge_Hello_pt-BR-FranciscaNeural_+0%.mp3").toList)
        (("Hello").toList) (("pt-BR-FranciscaNeural").toList)
        (("pt-BR").toList) false 5).fileSize ∧
      (edgeGenerateSpeech true (("cd").toList)
        (edgeGenerateSpeech true (("cd").toList) [] (("Hello").toList)
          (("pt-BR").toList) none (("normal").toList) true
          (SpeechBehavior.ok (("AUDIO").toList))).2.1
        (("Hello").toList) (("pt-BR").toList) none (("normal").toList) true
        (SpeechBehavior.fail none)).2.1 =
        (edgeGenerateSpeech true (("cd").toList) [] (("Hello").toList)
          (("pt-BR").toList) none (("normal").toList) true
          (SpeechBehavior.ok (("AUDIO").toList))).2.1 ∧
      (edgeGenerateSpeech true (("cd").toList)
        (edgeGenerateSpeech true (("cd").toList) [] (("Hello").toList)
          (("pt-BR").toList) none (("normal").toList) true
          (SpeechBehavior.ok (("AUDIO").toList))).2.1
        (("Hello").toList) (("pt-BR").toList) none (("normal").toList) true
        (SpeechBehavior.fail none)).2.2 = false :=
  speech_second_call_cached (("cd").toList) [] (("Hello").toList)
    (("pt-BR").toList) none (("normal").toList)
    (SpeechBehavior.ok (("AUDIO").toList)) (SpeechBehavior.fail none)
    (EdgeResult.mk (("cd/edge_Hello_pt-BR-FranciscaNeural_+0%.mp3").toList)
      (("/audio_cache_pt/edge_Hello_pt-BR-FranciscaNeural_+0%.mp3").toList)
      (("Hello").toList) (("pt-BR-FranciscaNeural").toList)
      (("pt-BR").toList) false 5) rfl

/-- C3 counterexample: a failed backend invocation that streamed partial
data into the cache path (the engine writes straight to the final cache
file and the failure path deletes nothing) leaves that data behind: the
call reports failure (`None`) yet the subsequent cache lookup for the same
request finds a non-empty entry — a cache hit, not not-found. -/
theorem failed_generation_pollutes_cache :
    (edgeGenerateSpeech true (("cd").toList) [] (("Hello").toList)
      (("pt-BR").toList) none (("normal").toList) true
      (SpeechBehavior.fail (some (("x").toList)))).1 = none ∧
    isCached (edgeGenerateSpeech true (("cd").toList) [] (("Hello").toList)
      (("pt-BR").toList) none (("normal").toList) true
      (SpeechBehavior.fail (some (("x").toList)))).2.1
      (edgeResolvedPath (("cd").toList) (("Hello").toList)
        (("pt-BR").toList) none (("normal").toList)) = true := by
  constructor <;> rfl

/-- C3 (amended): the failure paths of `generate_speech` never persist a
fallback artifact themselves, and whenever the failed backend invocation
left nothing (or only an empty file) at the output path, a subsequent
lookup of the request's cache key still returns not-found — for both the
Edge and the Piper service.  (When the failed invocation wrote partial
non-empty data, the counterexample applies instead.) -/
theorem degraded_not_cached :
    (∀ (cd : List Char) (fs : List (List Char × List Char))
       (t l : List Char) (v? : Option (List Char)) (s : List Char)
       (residue : Option (List Char)),
      isCached fs (edgeResolvedPath cd t l v? s) = false →
      residue = none ∨ residue = some [] →
      (edgeGenerateSpeech true cd fs t l v? s true
        (SpeechBehavior.fail residue)).1 = none ∧
      isCached (edgeGenerateSpeech true cd fs t l v? s true
        (SpeechBehavior.fail residue)).2.1 (edgeResolvedPath cd t l v? s) = false) ∧
    (∀ (cd : List Char) (fs : List (List Char × List Char))
       (t sp : List Char) (residue : Option (List Char)),
      isCached fs (piperCachePath cd t sp) = false →
      residue = none ∨ residue = some [] →
      (piperGenerateSpeech true cd fs t sp true
        (PiperOutcome.fail residue)).1 = none ∧
      isCached (piperGenerateSpeech true cd fs t sp true
        (PiperOutcome.fail residue)).2.1 (piperCachePath cd t sp) = false) := by
  have hstore : ∀ (fs : List (List Char × List Char)) (p : List Char),
      isCached (fsStore fs p []) p = false := by
    intro fs p
    simp [isCached, fsStore, fsLookup]
  constructor
  · intro cd fs t l v? s residue h hres
    simp only [edgeResolvedPath] at h ⊢
    rcases hres with rfl | rfl <;>
      simp [edgeGenerateSpeech, h, hstore]
  · intro cd fs t sp residue h hres
    rcases hres with rfl | rfl <;>
      simp [piperGenerateSpeech, h, hstore]

/-- Witness for the amended C3 theorem: a clean failure (no residue) on an
empty cache leaves the key absent for both services. -/
theorem degraded_not_cached_witness :
    ((edgeGenerateSpeech true (("cd").toList) [] (("Hi").toList)
        (("pt-BR").toList) none (("normal").toList) true
        (SpeechBehavior.fail none)).1 = none ∧
      isCached (edgeGenerateSpeech true (("cd").toList) [] (("Hi").toList)
        (("pt-BR").toList) none (("normal").toList) true
        (SpeechBehavior.fail none)).2.1
        (edgeResolvedPath (("cd").toList) (("Hi").toList) (("pt-BR").toList)
          none (("normal").toList)) = false) ∧
    ((piperGenerateSpeech true (("cd").toList) [] (("Hi").toList)
        (("1.0").toList) true (PiperOutcome.fail none)).1 = none ∧
      isCached (piperGenerateSpeech true (("cd").toList) [] (("Hi").toList)
        (("1.0").toList) true (PiperOutcome.fail none)).2.1
        (piperCachePath (("cd").toList) (("Hi").toList) (("1.0").toList)) = false) :=
  ⟨degraded_not_cached.1 (("cd").toList) [] (("Hi").toList)
      (("pt-BR").toList) none (("normal").toList) none (by rfl) (Or.inl rfl),
   degraded_not_cached.2 (("cd").toList) [] (("Hi").toList)
      (("1.0").toList) none (by rfl) (Or.inl rfl)⟩

theorem isPrefixOf_append_self (a b : List Char) :
    a.isPrefixOf (a ++ b) = true := by
  induction a with
  | nil => simp
  | cons x xs ih => simp [List.isPrefixOf, ih]

theorem isSuffixOf_append_self (a b : List Char) :
    b.isSuffixOf (a ++ b) = true := by
  simp only [List.isSuffixOf, List.reverse_append]
  exact isPrefixOf_append_self _ _

theorem pyStripStart_backtick (p : List Char) :
    pyStripStart ('`' :: p) = '`' :: p := by
  simp [pyStripStart, List.dropWhile_cons, show isPyWs '`' = false from rfl]

theorem pyStripEnd_concat_not_ws (l : List Char) (c : Char)
    (h : isPyWs c = false) : pyStripEnd (l ++ [c]) = l ++ [c] := by
  simp [pyStripEnd, List.reverse_append, List.dropWhile_cons, h]

theorem pyStrip_fencedPayload (p : List Char) :
    pyStrip (fencedPayload p) = fencedPayload p := by
  have hd : fencedPayload p =
      ((("```json\n").toList) ++ p ++ (("\n``").toList)) ++ ['`'] := by
    simp [fencedPayload, List.append_assoc]
  rw [hd, pyStrip]
  have h1 : pyStripStart (((("```json\n").toList) ++ p ++ (("\n``").toList)) ++ ['`']) =
      ((("```json\n").toList) ++ p ++ (("\n``").toList)) ++ ['`'] := by
    have h2 : ((("```json\n").toList) ++ p ++ (("\n``").toList)) ++ ['`'] =
        '`' :: (((("``json\n").toList) ++ p ++ (("\n``").toList)) ++ ['`']) := by
      simp [List.append_assoc]
    rw [h2]
    exact pyStripStart_backtick _
  rw [h1]
  exact pyStripEnd_concat_not_ws _ _ rfl

theorem parseJsonValue_backtick (t : List Char) :
    ∀ f, parseJsonValue f ('`' :: t) = none := by
  intro f
  cases f with
  | zero => rfl
  | succ f => rfl

theorem jsonLoads_backtick (t : List Char) : jsonLoads ('`' :: t) = none := by
  unfold jsonLoads
  rw [parseJsonValue_backtick]

theorem head_not_ws_of_stripStart (p : List Char) (hS : pyStripStart p = p) :
    ∀ c rest, p = c :: rest → isPyWs c = false := by
  intro c rest hp
  subst hp
  by_contra hx
  rw [Bool.not_eq_false] at hx
  rw [pyStripStart, List.dropWhile_cons, hx] at hS
  simp at hS
  have hlen := congrArg List.length hS
  have hle := (List.dropWhile_sublist (l := rest) isPyWs).length_le
  simp at hlen
  omega

theorem dropWhile_reverse_of_stripEnd (p : List Char) (hE : pyStripEnd p = p) :
    p.reverse.dropWhile isPyWs = p.reverse := by
  have h := congrArg List.reverse hE
  rwa [pyStripEnd, List.reverse_reverse] at h

theorem pyStrip_newline_wrap (p : List Char) (hne : p ≠ [])
    (hS : pyStripStart p = p) (hE : pyStripEnd p = p) :
    pyStrip ('\n' :: (p ++ ['\n'])) = p := by
  cases p with
  | nil => exact absurd rfl hne
  | cons x xs =>
    have hx : isPyWs x = false := head_not_ws_of_stripStart _ hS x xs rfl
    rw [pyStrip]
    have h1 : pyStripStart ('\n' :: (x :: xs ++ ['\n'])) = x :: xs ++ ['\n'] := by
      simp [pyStripStart, List.dropWhile_cons, hx,
        show isPyWs '\n' = true from rfl]
    rw [h1]
    have hrev := dropWhile_reverse_of_stripEnd (x :: xs) hE
    have h2 : ((x :: xs) ++ ['\n']).reverse = '\n' :: (x :: xs).reverse := by
      simp
    rw [pyStripEnd, h2, List.dropWhile_cons,
      if_pos (show isPyWs '\n' = true from rfl), hrev, List.reverse_reverse]

theorem cleanJson_fenced (p : List Char) (hne : p ≠ [])
    (hS : pyStripStart p = p) (hE : pyStripEnd p = p) :
    cleanJsonResponse (fencedPayload p) = p := by
  rw [cleanJsonResponse, pyStrip_fencedPayload]
  have hdecomp : fencedPayload p =
      (("```json").toList) ++ ('\n' :: (p ++ (("\n```").toList))) := by
    simp [fencedPayload, List.append_assoc]
  have hlead : stripLeadFence (fencedPayload p) =
      '\n' :: (p ++ (("\n```").toList)) := by
    rw [stripLeadFence, hdecomp]
    rw [if_pos (isPrefixOf_append_self _ _)]
    rw [show (7 : Nat) = (("```json").toList).length from rfl, List.drop_left]
  rw [hlead]
  have hmid : '\n' :: (p ++ (("\n```").toList)) =
      ('\n' :: (p ++ ['\n'])) ++ (("```").toList) := by
    simp [List.append_assoc]
  have htrail : stripTrailFence ('\n' :: (p ++ (("\n```").toList))) =
      '\n' :: (p ++ ['\n']) := by
    rw [stripTrailFence, hmid]
    rw [if_pos (isSuffixOf_append_self _ _)]
    have hlen : (('\n' :: (p ++ ['\n'])) ++ (("```").toList)).length - 3 =
        ('\n' :: (p ++ ['\n'])).length := by
      simp
    rw [hlen, List.take_left]
  rw [htrail]
  exact pyStrip_newline_wrap p hne hS hE

/-- C6 counterexample: the ContextualPhrases capability applies only
whitespace stripping before `json.loads`, so the well-formed payload "[]"
wrapped in a fenced block fails to parse and the entry point falls back —
refuting that envelope stripping precedes the decode for every structured
capability. -/
theorem phrases_fenced_payload_falls_back :
    phrasesParseStage (fencedPayload (("[]").toList)) = ParseStage.fallback ∧
    jsonLoads (("[]").toList) = some (JVal.arr []) :=
  ⟨rfl, rfl⟩

/-- C6 (amended): envelope stripping precedes the structured decode only
for the Chat and Game capabilities, whose fenced well-formed object
payloads still parse; ContextualPhrases, WordBreakdown and Quiz decode the
merely whitespace-stripped raw text, so the same fenced payload fails their
decode and triggers the fallback path. -/
theorem envelope_stripping_coverage (p : List Char)
    (kvs : List (List Char × JVal)) (hne : p ≠ [])
    (hS : pyStripStart p = p) (hE : pyStripEnd p = p)
    (hparse : jsonLoads p = some (JVal.obj kvs)) :
    chatParseStage (fencedPayload p) = ParseStage.parsed (JVal.obj kvs) ∧
    gameParseStage (fencedPayload p) = ParseStage.parsed (JVal.obj kvs) ∧
    phrasesParseStage (fencedPayload p) = ParseStage.fallback ∧
    breakdownParseStage (fencedPayload p) = ParseStage.fallback ∧
    quizParseStage (fencedPayload p) = ParseStage.fallback := by
  have hclean : cleanJsonResponse (fencedPayload p) = p :=
    cleanJson_fenced p hne hS hE
  have hnone : jsonLoads (pyStrip (fencedPayload p)) = none := by
    rw [pyStrip_fencedPayload]
    have hcons : fencedPayload p =
        '`' :: ((("``json\n").toList) ++ (p ++ (("\n```").toList))) := by
      simp [fencedPayload, List.append_assoc]
    rw [hcons, jsonLoads_backtick]
  exact ⟨by simp [chatParseStage, hclean, hparse],
    by simp [gameParseStage, hclean, hparse],
    by simp [phrasesParseStage, hnone],
    by simp [breakdownParseStage, hnone],
    by simp [quizParseStage, hnone]⟩

/-- Witness for the amended C6 theorem at the object payload `{"b": 1}`:
fenced, it still parses for Chat and Game and falls back for the other
three capabilities. -/
theorem envelope_stripping_coverage_witness :
    chatParseStage (fencedPayload (("\x7b\"b\": 1\x7d").toList)) =
      ParseStage.parsed (JVal.obj [((("b").toList), JVal.num 1)]) ∧
    gameParseStage (fencedPayload (("\x7b\"b\": 1\x7d").toList)) =
      ParseStage.parsed (JVal.obj [((("b").toList), JVal.num 1)]) ∧
    phrasesParseStage (fencedPayload (("\x7b\"b\": 1\x7d").toList)) =
      ParseStage.fallback ∧
    breakdownParseStage (fencedPayload (("\x7b\"b\": 1\x7d").toList)) =
      ParseStage.fallback ∧
    quizParseStage (fencedPayload (("\x7b\"b\": 1\x7d").toList)) =
      ParseStage.fallback :=
  envelope_stripping_coverage (("\x7b\"b\": 1\x7d").toList)
    [((("b").toList), JVal.num 1)] (by decide) rfl rfl rfl

theorem reSub_of_noMatch (pat : List RAtom) (repl : List Char) :
    ∀ (f : Nat) (s : List Char), s.length ≤ f → hasMatchB pat f s = false →
      reSub pat repl f s = s := by
  intro f
  induction f with
  | zero => intro s _ _; rfl
  | succ f ih =>
    intro s hlen hm
    cases s with
    | nil => rfl
    | cons x xs =>
      rw [hasMatchB] at hm
      simp only [Bool.or_eq_false_iff] at hm
      obtain ⟨h1, h2⟩ := hm
      have h1' : tryMatch pat (x :: xs) = none :=
        Option.not_isSome_iff_eq_none.mp (by simp [h1])
      rw [reSub, h1']
      have hxs : xs.length ≤ f := by
        simp only [List.length_cons] at hlen
        omega
      rw [ih xs hxs h2]

theorem reSubAll_of_noMatch (pat : List RAtom) (repl s : List Char)
    (h : noMatchB pat s = true) : reSubAll pat repl s = s := by
  rw [reSubAll]
  apply reSub_of_noMatch pat repl s.length s (Nat.le_refl _)
  rw [noMatchB] at h
  simpa using h

theorem foldl_reSubAll_of_noMatch (repl : List Char) :
    ∀ (ps : List (List RAtom)) (s : List Char),
      (∀ p ∈ ps, noMatchB p s = true) →
      ps.foldl (fun t p => reSubAll p repl t) s = s := by
  intro ps
  induction ps with
  | nil => intro s _; rfl
  | cons p rest ih =>
    intro s h
    rw [List.foldl_cons, reSubAll_of_noMatch p repl s (h p (List.mem_cons_self p rest))]
    exact ih s (fun q hq => h q (List.mem_cons_of_mem p hq))

/-- C8 counterexample: grammar correction is not idempotent.  For the
target word "o" (which coincides with the masculine article), the text
"Esse é O" is corrected to "Esse é o O", but a second application matches
the pattern `(Essa|Esse)\s+é\s+O` against the freshly inserted article
(case-insensitively) and rewrites again, yielding "Esse é o O O". -/
theorem fixGrammar_not_idem :
    fixPortugueseGrammar (("o").toList)
        (fixPortugueseGrammar (("o").toList) (("Esse é O").toList)) ≠
      fixPortugueseGrammar (("o").toList) (("Esse é O").toList) := by decide

/-- C8 (amended): re-applying the correction is a no-op exactly on texts
free of the five correction patterns; hence
`Correct(Correct(text, word), word) = Correct(text, word)` holds whenever
the corrected text contains no residual pattern occurrence — which is the
case for ordinary words, but fails for degenerate words such as "o", whose
substituted text matches a pattern again (see the counterexample). -/
theorem fixGrammar_idem_of_clean (word text : List Char)
    (h : ∀ p ∈ grammarPatterns word,
      noMatchB p (fixPortugueseGrammar word text) = true) :
    fixPortugueseGrammar word (fixPortugueseGrammar word text) =
      fixPortugueseGrammar word text := by
  conv_lhs => rw [fixPortugueseGrammar]
  exact foldl_reSubAll_of_noMatch (grammarRepl word) (grammarPatterns word)
    (fixPortugueseGrammar word text) h

/-- Witness for the amended C8 theorem: the word "livro" on the mis-agreed
text "Essa é LIVRO" is corrected to "Esse é o LIVRO", which is pattern-free,
so a second application changes nothing. -/
theorem fixGrammar_idem_of_clean_witness :
    fixPortugueseGrammar (("livro").toList)
        (fixPortugueseGrammar (("livro").toList) (("Essa é LIVRO").toList)) =
      fixPortugueseGrammar (("livro").toList) (("Essa é LIVRO").toList) :=
  fixGrammar_idem_of_clean (("livro").toList) (("Essa é LIVRO").toList)
    (by decide)
